import Mathlib

/-!
Verification of the tensorforce agent-configuration layer and the random
model sampler.

The embedding covers the three source files:
  * `tensorforce/agents/ppo_agent.py` (`PPOAgent.__init__`, `initialize_model`)
  * `tensorforce/agents/trpo_agent.py` (`TRPOAgent.__init__`, `initialize_model`)
  * `tensorforce/models/random_model.py` (`RandomModel.tf_actions_and_internals`)

Python configuration values (the heterogeneous dict/str/int/float/bool/None
data the constructors shuffle) are embedded as the inductive `Val`; Python
dicts as association lists in insertion order (a Python dict never holds a
key twice, and `dict(k1=v1, k2=v2, ...)` lists its keys in writing order, so
list equality of the embeddings coincides with Python dict equality).
Python floats carry only literal configuration constants here — no float
arithmetic is performed on them — so they are embedded as the exact rational
value of the literal.
-/

/-- A Python configuration value as the agent constructors handle it:
None, bool, int, float (the literal's rational value), str, or dict. -/
inductive Val where
  | none
  | bool (b : Bool)
  | int (n : Int)
  | float (q : Rat)
  | str (s : String)
  | dict (entries : List (String × Val))

/-- A Python dict of configuration values, in insertion order. -/
abbrev PyDict := List (String × Val)

/-- Python truthiness (`bool(v)`) of a configuration value. -/
def Val.truthy : Val → Bool
  | .none => false
  | .bool b => b
  | .int n => n != 0
  | .float q => q != 0
  | .str s => s != ""
  | .dict d => !d.isEmpty

/-- `v is None` in Python. -/
def Val.isNone : Val → Bool
  | .none => true
  | _ => false

/-- `d[k]` lookup on an embedded Python dict, `Option.none` when the key is
absent (Python would raise `KeyError`). -/
def dictGet : PyDict → String → Option Val
  | [], _ => Option.none
  | (k', v) :: rest, k => if k' = k then Option.some v else dictGet rest k

/-- The Python exceptions the embedded code can raise. -/
inductive PyErr where
  | tensorForceError (msg : String)
  | keyError (k : String)
  | assertionError
  | stopIteration
  | indexError

/-- The arguments of `PPOAgent.__init__` (ppo_agent.py lines 31-62), in
source order. `memory` is an optional dict specification, `update_frequency`
an optional int and `step_optimizer` an optional value, each `Option.none`
for Python `None`; the remaining arguments are passed through opaquely. -/
structure PPOArgs where
  states_spec : Val
  actions_spec : Val
  network : Val
  device : Val
  session_config : Val
  scope : Val
  saver_spec : Val
  summary_spec : Val
  distributed_spec : Val
  variable_noise : Val
  states_preprocessing : Val
  actions_exploration : Val
  reward_preprocessing : Val
  memory : Option PyDict
  update_spec : Val
  discount : Val
  distributions : Val
  entropy_regularization : Val
  baseline_mode : Val
  baseline : Val
  baseline_optimizer : Val
  gae_lambda : Val
  likelihood_ratio_clipping : Val
  batched_observe : Val
  batch_size : Int
  update_frequency : Option Int
  step_optimizer : Option Val
  subsampling_fraction : Val
  optimization_steps : Val

/-- The arguments of `TRPOAgent.__init__` (trpo_agent.py lines 30-65), in
source order. -/
structure TRPOArgs where
  states_spec : Val
  actions_spec : Val
  network : Val
  device : Val
  session_config : Val
  scope : Val
  saver_spec : Val
  summary_spec : Val
  distributed_spec : Val
  variable_noise : Val
  states_preprocessing : Val
  actions_exploration : Val
  reward_preprocessing : Val
  memory : Option PyDict
  update_spec : Val
  discount : Val
  distributions : Val
  entropy_regularization : Val
  baseline_mode : Val
  baseline : Val
  baseline_optimizer : Val
  gae_lambda : Val
  likelihood_ratio_clipping : Val
  batched_observe : Val
  batch_size : Int
  update_frequency : Option Int
  learning_rate : Val
  cg_max_iterations : Val
  cg_damping : Val
  cg_unroll_loop : Val
  ls_max_iterations : Val
  ls_accept_ratio : Val
  ls_unroll_loop : Val

/-- The fields a constructed `PPOAgent`/`TRPOAgent` stores on `self`
(ppo_agent.py lines 151-178, trpo_agent.py lines 154-181). Modelled from the
spec: the `Agent` superclass is not among the source files; following the
spec's description of the constructors as pure pass-through to a superclass,
`super().__init__` is embedded as storing `states_spec`, `actions_spec` and
`batched_observe` unchanged. -/
structure AgentState where
  device : Val
  session_config : Val
  scope : Val
  saver_spec : Val
  summary_spec : Val
  distributed_spec : Val
  variable_noise : Val
  states_preprocessing : Val
  actions_exploration : Val
  reward_preprocessing : Val
  memory : Val
  update_spec : Val
  optimizer : Val
  discount : Val
  network : Val
  distributions : Val
  entropy_regularization : Val
  baseline_mode : Val
  baseline : Val
  baseline_optimizer : Val
  gae_lambda : Val
  likelihood_ratio_clipping : Val
  states_spec : Val
  actions_spec : Val
  batched_observe : Val

/-- The default memory spec `dict(type='latest', include_next_states=False,
capacity=1000 * batch_size)` (ppo_agent.py lines 122-126, trpo_agent.py
lines 124-128). -/
def defaultMemory (batch_size : Int) : PyDict :=
  [("type", Val.str "latest"),
   ("include_next_states", Val.bool false),
   ("capacity", Val.int (1000 * batch_size))]

/-- The default PPO step optimizer `dict(type='adam', learning_rate=1e-4)`
(ppo_agent.py lines 137-140). -/
def defaultStepOptimizer : Val :=
  Val.dict [("type", Val.str "adam"), ("learning_rate", Val.float (1 / 10000))]

/-- The update spec `dict(mode='episodes', batch_size=batch_size,
frequency=update_frequency)` built by both constructors (ppo_agent.py lines
131-135, trpo_agent.py lines 133-137), after the `update_frequency` default. -/
def builtUpdateSpec (batch_size : Int) (update_frequency : Option Int) : PyDict :=
  [("mode", Val.str "episodes"),
   ("batch_size", Val.int batch_size),
   ("frequency", Val.int (update_frequency.getD batch_size))]

/-- The field stores of `PPOAgent.__init__` (ppo_agent.py lines 129-178)
once the memory check has passed: `mem` is the memory dict in force. -/
def PPOAgent.mkState (a : PPOArgs) (mem : PyDict) : AgentState :=
  let step_opt := a.step_optimizer.getD defaultStepOptimizer
  { device := a.device
    session_config := a.session_config
    scope := a.scope
    saver_spec := a.saver_spec
    summary_spec := a.summary_spec
    distributed_spec := a.distributed_spec
    variable_noise := a.variable_noise
    states_preprocessing := a.states_preprocessing
    actions_exploration := a.actions_exploration
    reward_preprocessing := a.reward_preprocessing
    memory := Val.dict mem
    update_spec := Val.dict (builtUpdateSpec a.batch_size a.update_frequency)
    optimizer := Val.dict
      [("type", Val.str "multi_step"),
       ("optimizer", Val.dict
         [("type", Val.str "subsampling_step"),
          ("optimizer", step_opt),
          ("fraction", a.subsampling_fraction)]),
       ("num_steps", a.optimization_steps)]
    discount := a.discount
    network := a.network
    distributions := a.distributions
    entropy_regularization := a.entropy_regularization
    baseline_mode := a.baseline_mode
    baseline := a.baseline
    baseline_optimizer := a.baseline_optimizer
    gae_lambda := a.gae_lambda
    likelihood_ratio_clipping := a.likelihood_ratio_clipping
    states_spec := a.states_spec
    actions_spec := a.actions_spec
    batched_observe := a.batched_observe }

/-- `PPOAgent.__init__` (ppo_agent.py lines 118-178): raise
`TensorForceError("No network provided.")` when `network is None`; fill the
memory default when `memory is None`, otherwise check
`assert not memory['include_next_states']` (a missing key is a `KeyError`,
a truthy value an `AssertionError`); then store the fields. -/
def PPOAgent.init (a : PPOArgs) : Except PyErr AgentState :=
  if a.network.isNone then
    Except.error (PyErr.tensorForceError "No network provided.")
  else
    match a.memory with
    | Option.none => Except.ok (PPOAgent.mkState a (defaultMemory a.batch_size))
    | Option.some m =>
      match dictGet m "include_next_states" with
      | Option.none => Except.error (PyErr.keyError "include_next_states")
      | Option.some v =>
        if v.truthy then Except.error PyErr.assertionError
        else Except.ok (PPOAgent.mkState a m)

/-- The field stores of `TRPOAgent.__init__` (trpo_agent.py lines 131-181)
once the memory check has passed. -/
def TRPOAgent.mkState (a : TRPOArgs) (mem : PyDict) : AgentState :=
  { device := a.device
    session_config := a.session_config
    scope := a.scope
    saver_spec := a.saver_spec
    summary_spec := a.summary_spec
    distributed_spec := a.distributed_spec
    variable_noise := a.variable_noise
    states_preprocessing := a.states_preprocessing
    actions_exploration := a.actions_exploration
    reward_preprocessing := a.reward_preprocessing
    memory := Val.dict mem
    update_spec := Val.dict (builtUpdateSpec a.batch_size a.update_frequency)
    optimizer := Val.dict
      [("type", Val.str "optimized_step"),
       ("optimizer", Val.dict
         [("type", Val.str "natural_gradient"),
          ("learning_rate", a.learning_rate),
          ("cg_max_iterations", a.cg_max_iterations),
          ("cg_damping", a.cg_damping),
          ("cg_unroll_loop", a.cg_unroll_loop)]),
       ("ls_max_iterations", a.ls_max_iterations),
       ("ls_accept_ratio", a.ls_accept_ratio),
       ("ls_mode", Val.str "exponential"),
       ("ls_parameter", Val.float (1 / 2)),
       ("ls_unroll_loop", a.ls_unroll_loop)]
    discount := a.discount
    network := a.network
    distributions := a.distributions
    entropy_regularization := a.entropy_regularization
    baseline_mode := a.baseline_mode
    baseline := a.baseline
    baseline_optimizer := a.baseline_optimizer
    gae_lambda := a.gae_lambda
    likelihood_ratio_clipping := a.likelihood_ratio_clipping
    states_spec := a.states_spec
    actions_spec := a.actions_spec
    batched_observe := a.batched_observe }

/-- `TRPOAgent.__init__` (trpo_agent.py lines 120-181): same control flow
as `PPOAgent.__init__` with the TRPO optimizer dict. -/
def TRPOAgent.init (a : TRPOArgs) : Except PyErr AgentState :=
  if a.network.isNone then
    Except.error (PyErr.tensorForceError "No network provided.")
  else
    match a.memory with
    | Option.none => Except.ok (TRPOAgent.mkState a (defaultMemory a.batch_size))
    | Option.some m =>
      match dictGet m "include_next_states" with
      | Option.none => Except.error (PyErr.keyError "include_next_states")
      | Option.some v =>
        if v.truthy then Except.error PyErr.assertionError
        else Except.ok (TRPOAgent.mkState a m)

/-- Modelled from the spec: `PGProbRatioModel`, the shared model constructor,
is not among the source files; the spec describes the agents as forwarding
their configuration to it, so it is embedded as the record of the
constructor arguments the call sites (ppo_agent.py lines 180-206,
trpo_agent.py lines 183-209) pass. -/
structure PGProbRatioModel where
  states_spec : Val
  actions_spec : Val
  device : Val
  session_config : Val
  scope : Val
  saver_spec : Val
  summary_spec : Val
  distributed_spec : Val
  variable_noise : Val
  states_preprocessing : Val
  actions_exploration : Val
  reward_preprocessing : Val
  memory : Val
  update_spec : Val
  optimizer : Val
  discount : Val
  network : Val
  distributions : Val
  entropy_regularization : Val
  baseline_mode : Val
  baseline : Val
  baseline_optimizer : Val
  gae_lambda : Val
  likelihood_ratio_clipping : Val

/-- `PPOAgent.initialize_model` (ppo_agent.py lines 180-206): builds a
`PGProbRatioModel` from the stored fields by keyword and leaves the agent
itself untouched (returned unchanged as the second component). -/
def PPOAgent.initialize_model (s : AgentState) : PGProbRatioModel × AgentState :=
  ({ states_spec := s.states_spec
     actions_spec := s.actions_spec
     device := s.device
     session_config := s.session_config
     scope := s.scope
     saver_spec := s.saver_spec
     summary_spec := s.summary_spec
     distributed_spec := s.distributed_spec
     variable_noise := s.variable_noise
     states_preprocessing := s.states_preprocessing
     actions_exploration := s.actions_exploration
     reward_preprocessing := s.reward_preprocessing
     memory := s.memory
     update_spec := s.update_spec
     optimizer := s.optimizer
     discount := s.discount
     network := s.network
     distributions := s.distributions
     entropy_regularization := s.entropy_regularization
     baseline_mode := s.baseline_mode
     baseline := s.baseline
     baseline_optimizer := s.baseline_optimizer
     gae_lambda := s.gae_lambda
     likelihood_ratio_clipping := s.likelihood_ratio_clipping }, s)

/-- `TRPOAgent.initialize_model` (trpo_agent.py lines 183-209): the same
keyword arguments, written in the TRPO call's order (`discount` comes
earlier there; keyword passing makes the order immaterial). -/
def TRPOAgent.initialize_model (s : AgentState) : PGProbRatioModel × AgentState :=
  ({ states_spec := s.states_spec
     actions_spec := s.actions_spec
     device := s.device
     session_config := s.session_config
     scope := s.scope
     saver_spec := s.saver_spec
     summary_spec := s.summary_spec
     distributed_spec := s.distributed_spec
     discount := s.discount
     variable_noise := s.variable_noise
     states_preprocessing := s.states_preprocessing
     actions_exploration := s.actions_exploration
     reward_preprocessing := s.reward_preprocessing
     memory := s.memory
     update_spec := s.update_spec
     optimizer := s.optimizer
     network := s.network
     distributions := s.distributions
     entropy_regularization := s.entropy_regularization
     baseline_mode := s.baseline_mode
     baseline := s.baseline
     baseline_optimizer := s.baseline_optimizer
     gae_lambda := s.gae_lambda
     likelihood_ratio_clipping := s.likelihood_ratio_clipping }, s)

/-!
The `RandomModel` sampler (random_model.py lines 57-81).

`tf_actions_and_internals` builds, for each entry of `actions_spec`, a
random tensor whose shape is the batch dimension of the first state
prepended to the action's shape. Tensors are embedded by their shape and an
element map from flat index to scalar; the TensorFlow samplers are embedded
by their inverse-CDF semantics over a supply of uniform draws `u` in `[0,1)`
and standard-normal draws `g`, one independent supply per action name (each
action makes at most one sampler call):
  * `tf.random_uniform(shape) < 0.5`            — `Scalar.b (u < 1/2)`;
  * `tf.random_uniform(shape, maxval=n, int)`   — `Scalar.i ⌊u * n⌋`;
  * `tf.random_uniform(shape, minval, maxval)`  — `Scalar.f (mn + u * (mx - mn))`;
  * `tf.random_normal(shape)`                   — `Scalar.f g`.
-/

/-- One element of a sampled tensor. -/
inductive Scalar where
  | b (x : Bool)
  | i (x : Int)
  | f (x : Rat)

/-- A tensor value: its shape and its element at each flat index. -/
structure TensorVal where
  shape : List Nat
  elem : Nat → Scalar

/-- One entry of `actions_spec`. `type` and `shape` are always read by the
sampler (random_model.py line 62 reads `action['shape']` before the type
dispatch; the surrounding framework guarantees both keys); `num_actions`,
`min_value` and `max_value` are read only on the matching branches and may
be absent. -/
structure ActionSpec where
  type : String
  shape : List Nat
  num_actions : Option Int
  min_value : Option Rat
  max_value : Option Rat

/-- Dict lookup on the accumulated actions dict. -/
def dictGetTV : List (String × TensorVal) → String → Option TensorVal
  | [], _ => Option.none
  | (k', v) :: rest, k => if k' = k then Option.some v else dictGetTV rest k

/-- Python dict assignment `d[k] = v`: replace in place when the key exists,
append otherwise. -/
def dictInsertTV : List (String × TensorVal) → String → TensorVal → List (String × TensorVal)
  | [], k, v => [(k, v)]
  | (k', v') :: rest, k, v =>
    if k' = k then (k, v) :: rest else (k', v') :: dictInsertTV rest k v

/-- The body of the loop of `tf_actions_and_internals` (random_model.py
lines 62-79) for one action: `Option.none` when the action's type matches
none of bool/int/float (no entry is produced), an error when a key the
matching branch reads is absent. -/
def sampleAction (u g : Nat → Rat) (batch : Nat) (a : ActionSpec) :
    Except PyErr (Option TensorVal) :=
  let shape := batch :: a.shape
  if a.type = "bool" then
    Except.ok (Option.some ⟨shape, fun i => Scalar.b (decide (u i < 1 / 2))⟩)
  else if a.type = "int" then
    match a.num_actions with
    | Option.none => Except.error (PyErr.keyError "num_actions")
    | Option.some n =>
      Except.ok (Option.some ⟨shape, fun i => Scalar.i ⌊u i * (n : Rat)⌋⟩)
  else if a.type = "float" then
    match a.min_value with
    | Option.some mn =>
      match a.max_value with
      | Option.none => Except.error (PyErr.keyError "max_value")
      | Option.some mx =>
        Except.ok (Option.some ⟨shape, fun i => Scalar.f (mn + u i * (mx - mn))⟩)
    | Option.none => Except.ok (Option.some ⟨shape, fun i => Scalar.f (g i)⟩)
  else
    Except.ok Option.none

/-- The `for name, action in self.actions_spec.items()` loop (random_model.py
lines 61-79), accumulating `actions[name] = ...` assignments. -/
def sampleLoop (u g : String → Nat → Rat) (batch : Nat) :
    List (String × ActionSpec) → List (String × TensorVal) →
    Except PyErr (List (String × TensorVal))
  | [], acc => Except.ok acc
  | (name, a) :: rest, acc =>
    match sampleAction (u name) (g name) batch a with
    | Except.error e => Except.error e
    | Except.ok Option.none => sampleLoop u g batch rest acc
    | Except.ok (Option.some t) => sampleLoop u g batch rest (dictInsertTV acc name t)

/-- `RandomModel.tf_actions_and_internals` (random_model.py lines 57-81):
assert the internals collection is empty, take the batch dimension from the
first state (`next(iter(states.values()))` fails on an empty states dict,
`tf.shape(...)[0]` on a rank-0 state), run the sampling loop, and return the
actions dict together with the empty internals tuple. -/
def tf_actions_and_internals (u g : String → Nat → Rat)
    (states : List (String × TensorVal)) (internals : List TensorVal)
    (actions_spec : List (String × ActionSpec)) :
    Except PyErr (List (String × TensorVal) × List TensorVal) :=
  if internals.length ≠ 0 then Except.error PyErr.assertionError
  else
    match states with
    | [] => Except.error PyErr.stopIteration
    | (_, st) :: _ =>
      match st.shape with
      | [] => Except.error PyErr.indexError
      | batch :: _ =>
        match sampleLoop u g batch actions_spec [] with
        | Except.error e => Except.error e
        | Except.ok acts => Except.ok (acts, [])

/-! Concrete instances for the witnesses. -/

/-- Baseline concrete PPO arguments: a network is provided, every optional
argument is None, and the remaining arguments carry the source defaults. -/
def ppoArgs0 : PPOArgs where
  states_spec := Val.none
  actions_spec := Val.none
  network := Val.str "net"
  device := Val.none
  session_config := Val.none
  scope := Val.str "ppo"
  saver_spec := Val.none
  summary_spec := Val.none
  distributed_spec := Val.none
  variable_noise := Val.none
  states_preprocessing := Val.none
  actions_exploration := Val.none
  reward_preprocessing := Val.none
  memory := Option.none
  update_spec := Val.none
  discount := Val.float (99 / 100)
  distributions := Val.none
  entropy_regularization := Val.none
  baseline_mode := Val.none
  baseline := Val.none
  baseline_optimizer := Val.none
  gae_lambda := Val.none
  likelihood_ratio_clipping := Val.none
  batched_observe := Val.none
  batch_size := 10
  update_frequency := Option.none
  step_optimizer := Option.none
  subsampling_fraction := Val.float (1 / 10)
  optimization_steps := Val.int 100

/-- Baseline concrete TRPO arguments, with the source defaults. -/
def trpoArgs0 : TRPOArgs where
  states_spec := Val.none
  actions_spec := Val.none
  network := Val.str "net"
  device := Val.none
  session_config := Val.none
  scope := Val.str "trpo"
  saver_spec := Val.none
  summary_spec := Val.none
  distributed_spec := Val.none
  variable_noise := Val.none
  states_preprocessing := Val.none
  actions_exploration := Val.none
  reward_preprocessing := Val.none
  memory := Option.none
  update_spec := Val.none
  discount := Val.float (99 / 100)
  distributions := Val.none
  entropy_regularization := Val.none
  baseline_mode := Val.none
  baseline := Val.none
  baseline_optimizer := Val.none
  gae_lambda := Val.none
  likelihood_ratio_clipping := Val.none
  batched_observe := Val.none
  batch_size := 10
  update_frequency := Option.none
  learning_rate := Val.float (1 / 1000)
  cg_max_iterations := Val.int 20
  cg_damping := Val.float (1 / 1000)
  cg_unroll_loop := Val.bool false
  ls_max_iterations := Val.int 10
  ls_accept_ratio := Val.float (9 / 10)
  ls_unroll_loop := Val.bool false

/-- The agent state `PPOAgent.init ppoArgs0` produces. -/
def ppoS0 : AgentState :=
  match PPOAgent.init ppoArgs0 with
  | Except.ok s => s
  | Except.error _ => PPOAgent.mkState ppoArgs0 []

/-- The agent state `TRPOAgent.init trpoArgs0` produces. -/
def trpoS0 : AgentState :=
  match TRPOAgent.init trpoArgs0 with
  | Except.ok s => s
  | Except.error _ => TRPOAgent.mkState trpoArgs0 []

/-- Concrete uniform draws for the sampler witnesses: constantly 1/2. -/
def u0 : String → Nat → Rat := fun _ _ => 1 / 2

/-- Concrete normal draws for the sampler witnesses: constantly 0. -/
def g0 : String → Nat → Rat := fun _ _ => 0

/-- A concrete batched state tensor of batch dimension 2. -/
def st0 : TensorVal := ⟨[2], fun _ => Scalar.f 0⟩

/-- A concrete states dict holding the one state `st0`. -/
def states0 : List (String × TensorVal) := [("s", st0)]

/-- A concrete int action with four choices. -/
def aInt0 : ActionSpec := ⟨"int", [], Option.some 4, Option.none, Option.none⟩

/-- A concrete actions_spec holding the one action `aInt0`. -/
def spec0 : List (String × ActionSpec) := [("a", aInt0)]

/-- The actions dict a run on the concrete inputs returns. -/
def acts0 : List (String × TensorVal) :=
  match tf_actions_and_internals u0 g0 states0 [] spec0 with
  | Except.ok (acts, _) => acts
  | Except.error _ => []

/-- A concrete action of a type that is none of bool, int or float. -/
def aUnk0 : ActionSpec := ⟨"foo", [], Option.none, Option.none, Option.none⟩

/-- A concrete actions_spec holding only the unknown-typed action. -/
def specU0 : List (String × ActionSpec) := [("x", aUnk0)]

/-! Helper lemmas about the actions dict and the sampling loop. -/

theorem dictGetTV_insert_self (d : List (String × TensorVal)) (k : String) (v : TensorVal) :
    dictGetTV (dictInsertTV d k v) k = Option.some v := by
  induction d with
  | nil => simp [dictInsertTV, dictGetTV]
  | cons p rest ih =>
    obtain ⟨k', v'⟩ := p
    by_cases h : k' = k
    · simp [dictInsertTV, dictGetTV, h]
    · simp [dictInsertTV, dictGetTV, h, ih]

theorem dictGetTV_insert_ne (d : List (String × TensorVal)) (k k' : String) (v : TensorVal)
    (h : k ≠ k') : dictGetTV (dictInsertTV d k v) k' = dictGetTV d k' := by
  induction d with
  | nil => simp [dictInsertTV, dictGetTV, h]
  | cons p rest ih =>
    obtain ⟨k0, v0⟩ := p
    by_cases h0 : k0 = k
    · subst h0
      simp [dictInsertTV, dictGetTV, h]
    · simp [dictInsertTV, dictGetTV, h0, ih]

/-- Processing actions whose names avoid `name` leaves the entry for `name`
untouched. -/
theorem sampleLoop_lookup_notmem (u g : String → Nat → Rat) (batch : Nat) :
    ∀ (spec : List (String × ActionSpec)) (acc acts : List (String × TensorVal))
      (name : String), name ∉ spec.map Prod.fst →
      sampleLoop u g batch spec acc = Except.ok acts →
      dictGetTV acts name = dictGetTV acc name := by
  intro spec
  induction spec with
  | nil =>
    intro acc acts name _ hrun
    simp only [sampleLoop] at hrun
    cases hrun
    rfl
  | cons p rest ih =>
    intro acc acts name hname hrun
    obtain ⟨n0, a0⟩ := p
    simp only [List.map_cons, List.mem_cons, not_or] at hname
    obtain ⟨hne, hrest⟩ := hname
    simp only [sampleLoop] at hrun
    cases hs : sampleAction (u n0) (g n0) batch a0 with
    | error e => rw [hs] at hrun; cases hrun
    | ok r =>
      rw [hs] at hrun
      cases r with
      | none => exact ih acc acts name hrest hrun
      | some t =>
        rw [ih (dictInsertTV acc n0 t) acts name hrest hrun]
        exact dictGetTV_insert_ne acc n0 name t (fun h => hne h.symm)

/-- The loop over `l1 ++ l2` is the loop over `l1` followed by the loop
over `l2`. -/
theorem sampleLoop_append (u g : String → Nat → Rat) (batch : Nat)
    (l1 l2 : List (String × ActionSpec)) :
    ∀ acc, sampleLoop u g batch (l1 ++ l2) acc =
      match sampleLoop u g batch l1 acc with
      | Except.error e => Except.error e
      | Except.ok acc2 => sampleLoop u g batch l2 acc2 := by
  induction l1 with
  | nil => intro acc; simp [sampleLoop]
  | cons p rest ih =>
    intro acc
    obtain ⟨n0, a0⟩ := p
    simp only [List.cons_append, sampleLoop]
    cases sampleAction (u n0) (g n0) batch a0 with
    | error e => rfl
    | ok r =>
      cases r with
      | none => exact ih acc
      | some t => exact ih (dictInsertTV acc n0 t)

/-- For a spec without repeated action names, the entry the finished loop
holds for `name` is exactly what `sampleAction` produced for `name`'s
action (and that call did not raise). -/
theorem sampleLoop_lookup (u g : String → Nat → Rat) (batch : Nat)
    (spec : List (String × ActionSpec)) (acts : List (String × TensorVal))
    (name : String) (a : ActionSpec)
    (hnd : (spec.map Prod.fst).Nodup) (hmem : (name, a) ∈ spec)
    (hrun : sampleLoop u g batch spec [] = Except.ok acts) :
    ∃ r, sampleAction (u name) (g name) batch a = Except.ok r ∧
      dictGetTV acts name = r := by
  obtain ⟨l1, l2, rfl⟩ := List.append_of_mem hmem
  rw [List.map_append, List.nodup_append] at hnd
  obtain ⟨hnd1, hnd2, hdisj⟩ := hnd
  have hname2 : name ∉ l2.map Prod.fst := by
    simp only [List.map_cons, List.nodup_cons] at hnd2
    exact hnd2.1
  have hname1 : name ∉ l1.map Prod.fst := by
    intro hin
    exact hdisj hin (by simp)
  rw [sampleLoop_append] at hrun
  cases h1 : sampleLoop u g batch l1 [] with
  | error e => rw [h1] at hrun; cases hrun
  | ok acc1 =>
    rw [h1] at hrun
    simp only [sampleLoop] at hrun
    cases hs : sampleAction (u name) (g name) batch a with
    | error e => rw [hs] at hrun; cases hrun
    | ok r =>
      rw [hs] at hrun
      refine ⟨r, rfl, ?_⟩
      cases r with
      | none =>
        rw [sampleLoop_lookup_notmem u g batch l2 acc1 acts name hname2 hrun]
        rw [sampleLoop_lookup_notmem u g batch l1 [] acc1 name hname1 h1]
        rfl
      | some t =>
        rw [sampleLoop_lookup_notmem u g batch l2 _ acts name hname2 hrun]
        exact dictGetTV_insert_self acc1 name t

/-- Inversion of a successful `tf_actions_and_internals` run. -/
theorem tf_actions_ok_inv (u g : String → Nat → Rat)
    (states : List (String × TensorVal)) (internals : List TensorVal)
    (spec : List (String × ActionSpec)) (acts : List (String × TensorVal))
    (out : List TensorVal)
    (h : tf_actions_and_internals u g states internals spec = Except.ok (acts, out)) :
    internals = [] ∧ out = [] ∧
      ∃ p rest batch sh, states = p :: rest ∧ p.2.shape = batch :: sh ∧
        sampleLoop u g batch spec [] = Except.ok acts := by
  unfold tf_actions_and_internals at h
  by_cases hi : internals.length ≠ 0
  · rw [if_pos hi] at h; cases h
  · rw [if_neg hi] at h
    push_neg at hi
    have hinil : internals = [] := List.length_eq_zero.mp hi
    cases states with
    | nil => cases h
    | cons p rest =>
      obtain ⟨sn, st⟩ := p
      dsimp only at h
      cases hsh : st.shape with
      | nil => rw [hsh] at h; cases h
      | cons batch shr =>
        rw [hsh] at h
        dsimp only at h
        cases hl : sampleLoop u g batch spec [] with
        | error e => rw [hl] at h; cases h
        | ok acc =>
          rw [hl] at h
          cases h
          exact ⟨hinil, rfl, ⟨sn, st⟩, rest, batch, shr, rfl, hsh, hl⟩

/-- C1: for every action name in actions_spec, `tf_actions_and_internals`
returns an action sampled from the configured action-space bounds — an
action of type int yields values in `[0, num_actions)` (for a positive
`num_actions`), an action of type float with configured bounds yields values
within `[min_value, max_value]` (for `min_value ≤ max_value`), and an action
of type bool yields a boolean value — given uniform draws in `[0, 1)` and
distinct action names. -/
theorem random_model_action_bounds (u g : String → Nat → Rat)
    (hu : ∀ s i, 0 ≤ u s i ∧ u s i < 1)
    (states : List (String × TensorVal)) (internals : List TensorVal)
    (spec : List (String × ActionSpec)) (acts : List (String × TensorVal))
    (out : List TensorVal)
    (hnd : (spec.map Prod.fst).Nodup)
    (hrun : tf_actions_and_internals u g states internals spec = Except.ok (acts, out))
    (name : String) (a : ActionSpec) (hmem : (name, a) ∈ spec) :
    (a.type = "bool" → ∃ t, dictGetTV acts name = Option.some t ∧
        ∀ j, ∃ v : Bool, t.elem j = Scalar.b v) ∧
    (a.type = "int" → ∀ n, a.num_actions = Option.some n → 1 ≤ n →
        ∃ t, dictGetTV acts name = Option.some t ∧
          ∀ j, ∃ v : Int, t.elem j = Scalar.i v ∧ 0 ≤ v ∧ v < n) ∧
    (a.type = "float" → ∀ mn mx, a.min_value = Option.some mn →
        a.max_value = Option.some mx → mn ≤ mx →
        ∃ t, dictGetTV acts name = Option.some t ∧
          ∀ j, ∃ v : Rat, t.elem j = Scalar.f v ∧ mn ≤ v ∧ v ≤ mx) := by
  obtain ⟨-, -, p, rest, batch, sh, -, -, hloop⟩ :=
    tf_actions_ok_inv u g states internals spec acts out hrun
  obtain ⟨r, hs, hg⟩ := sampleLoop_lookup u g batch spec acts name a hnd hmem hloop
  refine ⟨?_, ?_, ?_⟩
  · intro ht
    simp [sampleAction, ht] at hs
    subst hs
    exact ⟨_, hg, fun j => ⟨_, rfl⟩⟩
  · intro ht n hn hn1
    simp [sampleAction, ht, hn] at hs
    subst hs
    have hnq : (0 : Rat) < (n : Rat) := by exact_mod_cast (by omega : (0 : Int) < n)
    refine ⟨_, hg, fun j => ⟨⌊u name j * (n : Rat)⌋, rfl, ?_, ?_⟩⟩
    · exact Int.floor_nonneg.mpr (mul_nonneg (hu name j).1 hnq.le)
    · refine Int.floor_lt.mpr ?_
      calc u name j * (n : Rat) < 1 * (n : Rat) :=
            mul_lt_mul_of_pos_right (hu name j).2 hnq
        _ = (n : Rat) := one_mul _
  · intro ht mn mx hmn hmx hle
    simp [sampleAction, ht, hmn, hmx] at hs
    subst hs
    refine ⟨_, hg, fun j => ⟨mn + u name j * (mx - mn), rfl, ?_, ?_⟩⟩
    · exact le_add_of_nonneg_right (mul_nonneg (hu name j).1 (sub_nonneg.mpr hle))
    · have h1 : u name j * (mx - mn) ≤ mx - mn :=
        mul_le_of_le_one_left (sub_nonneg.mpr hle) (hu name j).2.le
      linarith

/-- C6: `tf_actions_and_internals` dispatches over exactly the three action
types bool, int and float: every action of one of those types gets an entry
under its name whose shape is the batch dimension of the first state
prepended to the action's shape, with the sampler chosen by the type
(uniform-below-one-half for bool, integer-uniform below num_actions for int,
range-uniform for a bounded float and normal for an unbounded one). -/
theorem random_model_shape_and_sampler (u g : String → Nat → Rat)
    (states : List (String × TensorVal)) (internals : List TensorVal)
    (spec : List (String × ActionSpec)) (acts : List (String × TensorVal))
    (out : List TensorVal) (sname : String) (st : TensorVal)
    (srest : List (String × TensorVal)) (batch : Nat) (bsh : List Nat)
    (hnd : (spec.map Prod.fst).Nodup)
    (hst : states = (sname, st) :: srest) (hsh : st.shape = batch :: bsh)
    (hrun : tf_actions_and_internals u g states internals spec = Except.ok (acts, out))
    (name : String) (a : ActionSpec) (hmem : (name, a) ∈ spec)
    (htype : a.type = "bool" ∨ a.type = "int" ∨ a.type = "float") :
    ∃ t, dictGetTV acts name = Option.some t ∧ t.shape = batch :: a.shape ∧
      (a.type = "bool" → ∀ j, t.elem j = Scalar.b (decide (u name j < 1 / 2))) ∧
      (a.type = "int" → ∃ n, a.num_actions = Option.some n ∧
        ∀ j, t.elem j = Scalar.i ⌊u name j * (n : Rat)⌋) ∧
      (a.type = "float" →
        (∀ mn mx, a.min_value = Option.some mn → a.max_value = Option.some mx →
          ∀ j, t.elem j = Scalar.f (mn + u name j * (mx - mn))) ∧
        (a.min_value = Option.none → ∀ j, t.elem j = Scalar.f (g name j))) := by
  subst hst
  obtain ⟨-, -, p, rest, batch', sh', heq, hps, hloop⟩ :=
    tf_actions_ok_inv u g _ internals spec acts out hrun
  injection heq with h1 h2
  subst h1
  subst h2
  rw [hsh] at hps
  injection hps with h3 h4
  subst h3
  obtain ⟨r, hs, hg⟩ := sampleLoop_lookup u g batch spec acts name a hnd hmem hloop
  rcases htype with ht | ht | ht
  · simp [sampleAction, ht] at hs
    subst hs
    refine ⟨_, hg, rfl, fun _ j => by norm_num, ?_, ?_⟩
    · intro hti; simp [ht] at hti
    · intro htf; simp [ht] at htf
  · cases hn : a.num_actions with
    | none => simp [sampleAction, ht, hn] at hs
    | some n =>
      simp [sampleAction, ht, hn] at hs
      subst hs
      refine ⟨_, hg, rfl, ?_, fun _ => ⟨n, rfl, fun j => rfl⟩, ?_⟩
      · intro htb; simp [ht] at htb
      · intro htf; simp [ht] at htf
  · cases hmn : a.min_value with
    | none =>
      simp [sampleAction, ht, hmn] at hs
      subst hs
      refine ⟨_, hg, rfl, ?_, ?_, fun _ => ⟨?_, fun _ j => rfl⟩⟩
      · intro htb; simp [ht] at htb
      · intro hti; simp [ht] at hti
      · intro mn' mx' h1 _
        exact Option.noConfusion h1
    | some mn =>
      cases hmx : a.max_value with
      | none => simp [sampleAction, ht, hmn, hmx] at hs
      | some mx =>
        simp [sampleAction, ht, hmn, hmx] at hs
        subst hs
        refine ⟨_, hg, rfl, ?_, ?_, fun _ => ⟨?_, ?_⟩⟩
        · intro htb; simp [ht] at htb
        · intro hti; simp [ht] at hti
        · intro mn' mx' h1 h2
          injection h1 with h1
          injection h2 with h2
          subst h1
          subst h2
          exact fun j => rfl
        · intro h1
          exact Option.noConfusion h1

/-- C7: `RandomModel` is stateless with respect to internals — a non-empty
internals collection fails the assertion, and every successful run returns
the empty tuple as the internals component of its result. -/
theorem random_model_stateless (u g : String → Nat → Rat)
    (states : List (String × TensorVal)) (internals : List TensorVal)
    (spec : List (String × ActionSpec)) :
    (internals ≠ [] →
      tf_actions_and_internals u g states internals spec =
        Except.error PyErr.assertionError) ∧
    (∀ acts out,
      tf_actions_and_internals u g states internals spec = Except.ok (acts, out) →
      out = []) := by
  constructor
  · intro h
    have hl : internals.length ≠ 0 := fun hl => h (List.length_eq_zero.mp hl)
    unfold tf_actions_and_internals
    rw [if_pos hl]
  · intro acts out h
    exact (tf_actions_ok_inv u g states internals spec acts out h).2.1

/-- C10: an action whose type is none of bool, int or float raises no error
in `tf_actions_and_internals` — its sampler step returns no tensor — and the
returned actions dictionary contains no entry for that action's name. -/
theorem random_model_unknown_type_dropped (u g : String → Nat → Rat)
    (batch : Nat)
    (states : List (String × TensorVal)) (internals : List TensorVal)
    (spec : List (String × ActionSpec))
    (name : String) (a : ActionSpec)
    (hnd : (spec.map Prod.fst).Nodup) (hmem : (name, a) ∈ spec)
    (ht1 : a.type ≠ "bool") (ht2 : a.type ≠ "int") (ht3 : a.type ≠ "float") :
    sampleAction (u name) (g name) batch a = Except.ok Option.none ∧
    (∀ acts out,
      tf_actions_and_internals u g states internals spec = Except.ok (acts, out) →
      dictGetTV acts name = Option.none) := by
  have hsamp : ∀ b, sampleAction (u name) (g name) b a = Except.ok Option.none := by
    intro b
    simp [sampleAction, ht1, ht2, ht3]
  constructor
  · exact hsamp batch
  · intro acts out h
    obtain ⟨-, -, p, rest, b, sh, -, -, hloop⟩ :=
      tf_actions_ok_inv u g states internals spec acts out h
    obtain ⟨r, hs, hg⟩ := sampleLoop_lookup u g b spec acts name a hnd hmem hloop
    rw [hsamp b] at hs
    injection hs with h2
    rw [← h2] at hg
    exact hg

/-! Helper lemmas about the agent constructors. -/

theorem Val.isNone_iff (v : Val) : v.isNone = true ↔ v = Val.none := by
  cases v <;> simp [Val.isNone]

/-- Inversion of a successful `PPOAgent.init`: the state is `mkState` over
the memory dict in force, which is either the default (when the argument was
None) or the argument itself. -/
theorem ppo_init_ok_inv (a : PPOArgs) (s : AgentState)
    (h : PPOAgent.init a = Except.ok s) :
    ∃ mem : PyDict, s = PPOAgent.mkState a mem ∧
      ((a.memory = Option.none ∧ mem = defaultMemory a.batch_size) ∨
       a.memory = Option.some mem) := by
  unfold PPOAgent.init at h
  by_cases hn : a.network.isNone = true
  · rw [if_pos hn] at h; cases h
  · rw [if_neg hn] at h
    cases hm : a.memory with
    | none =>
      rw [hm] at h
      dsimp only at h
      injection h with h
      exact ⟨defaultMemory a.batch_size, h.symm, Or.inl ⟨rfl, rfl⟩⟩
    | some m =>
      rw [hm] at h
      dsimp only at h
      cases hk : dictGet m "include_next_states" with
      | none => rw [hk] at h; cases h
      | some v =>
        rw [hk] at h
        dsimp only at h
        by_cases hv : v.truthy = true
        · rw [if_pos hv] at h; cases h
        · rw [if_neg hv] at h
          injection h with h
          exact ⟨m, h.symm, Or.inr rfl⟩

/-- Inversion of a successful `TRPOAgent.init`. -/
theorem trpo_init_ok_inv (a : TRPOArgs) (s : AgentState)
    (h : TRPOAgent.init a = Except.ok s) :
    ∃ mem : PyDict, s = TRPOAgent.mkState a mem ∧
      ((a.memory = Option.none ∧ mem = defaultMemory a.batch_size) ∨
       a.memory = Option.some mem) := by
  unfold TRPOAgent.init at h
  by_cases hn : a.network.isNone = true
  · rw [if_pos hn] at h; cases h
  · rw [if_neg hn] at h
    cases hm : a.memory with
    | none =>
      rw [hm] at h
      dsimp only at h
      injection h with h
      exact ⟨defaultMemory a.batch_size, h.symm, Or.inl ⟨rfl, rfl⟩⟩
    | some m =>
      rw [hm] at h
      dsimp only at h
      cases hk : dictGet m "include_next_states" with
      | none => rw [hk] at h; cases h
      | some v =>
        rw [hk] at h
        dsimp only at h
        by_cases hv : v.truthy = true
        · rw [if_pos hv] at h; cases h
        · rw [if_neg hv] at h
          injection h with h
          exact ⟨m, h.symm, Or.inr rfl⟩

/-- C2: a constructed `PPOAgent` stores the nested optimizer specification
`dict(type='multi_step', optimizer=dict(type='subsampling_step',
optimizer=step_optimizer, fraction=subsampling_fraction),
num_steps=optimization_steps)`, where `step_optimizer` defaults to
`dict(type='adam', learning_rate=1e-4)` when the argument is None. -/
theorem ppo_optimizer_spec (a : PPOArgs) (s : AgentState)
    (h : PPOAgent.init a = Except.ok s) :
    s.optimizer = Val.dict
      [("type", Val.str "multi_step"),
       ("optimizer", Val.dict
         [("type", Val.str "subsampling_step"),
          ("optimizer", a.step_optimizer.getD (Val.dict
            [("type", Val.str "adam"), ("learning_rate", Val.float (1 / 10000))])),
          ("fraction", a.subsampling_fraction)]),
       ("num_steps", a.optimization_steps)] := by
  obtain ⟨mem, rfl, -⟩ := ppo_init_ok_inv a s h
  rfl

/-- C3: a constructed `TRPOAgent` stores the nested optimizer specification
`dict(type='optimized_step', optimizer=dict(type='natural_gradient',
learning_rate=..., cg_max_iterations=..., cg_damping=..., cg_unroll_loop=...),
ls_max_iterations=..., ls_accept_ratio=..., ls_mode='exponential',
ls_parameter=0.5, ls_unroll_loop=...)`, with `ls_mode` and `ls_parameter`
fixed regardless of the arguments. -/
theorem trpo_optimizer_spec (a : TRPOArgs) (s : AgentState)
    (h : TRPOAgent.init a = Except.ok s) :
    s.optimizer = Val.dict
      [("type", Val.str "optimized_step"),
       ("optimizer", Val.dict
         [("type", Val.str "natural_gradient"),
          ("learning_rate", a.learning_rate),
          ("cg_max_iterations", a.cg_max_iterations),
          ("cg_damping", a.cg_damping),
          ("cg_unroll_loop", a.cg_unroll_loop)]),
       ("ls_max_iterations", a.ls_max_iterations),
       ("ls_accept_ratio", a.ls_accept_ratio),
       ("ls_mode", Val.str "exponential"),
       ("ls_parameter", Val.float (1 / 2)),
       ("ls_unroll_loop", a.ls_unroll_loop)] := by
  obtain ⟨mem, rfl, -⟩ := trpo_init_ok_inv a s h
  rfl

/-- C4: for both agents, a None memory argument is replaced by
`dict(type='latest', include_next_states=False, capacity=1000*batch_size)`
and a provided memory dict is stored as given; a None update_frequency means
the stored update frequency equals batch_size, a provided one is used. -/
theorem agents_memory_and_update_defaults :
    (∀ (a : PPOArgs) (s : AgentState), PPOAgent.init a = Except.ok s →
      ((a.memory = Option.none → s.memory = Val.dict
          [("type", Val.str "latest"), ("include_next_states", Val.bool false),
           ("capacity", Val.int (1000 * a.batch_size))]) ∧
       (∀ m, a.memory = Option.some m → s.memory = Val.dict m) ∧
       (a.update_frequency = Option.none → s.update_spec = Val.dict
          [("mode", Val.str "episodes"), ("batch_size", Val.int a.batch_size),
           ("frequency", Val.int a.batch_size)]) ∧
       (∀ f, a.update_frequency = Option.some f → s.update_spec = Val.dict
          [("mode", Val.str "episodes"), ("batch_size", Val.int a.batch_size),
           ("frequency", Val.int f)]))) ∧
    (∀ (a : TRPOArgs) (s : AgentState), TRPOAgent.init a = Except.ok s →
      ((a.memory = Option.none → s.memory = Val.dict
          [("type", Val.str "latest"), ("include_next_states", Val.bool false),
           ("capacity", Val.int (1000 * a.batch_size))]) ∧
       (∀ m, a.memory = Option.some m → s.memory = Val.dict m) ∧
       (a.update_frequency = Option.none → s.update_spec = Val.dict
          [("mode", Val.str "episodes"), ("batch_size", Val.int a.batch_size),
           ("frequency", Val.int a.batch_size)]) ∧
       (∀ f, a.update_frequency = Option.some f → s.update_spec = Val.dict
          [("mode", Val.str "episodes"), ("batch_size", Val.int a.batch_size),
           ("frequency", Val.int f)]))) := by
  constructor
  · intro a s h
    obtain ⟨mem, rfl, hca⟩ := ppo_init_ok_inv a s h
    refine ⟨?_, ?_, ?_, ?_⟩
    · intro hmem
      rcases hca with ⟨-, rfl⟩ | hsome
      · rfl
      · rw [hmem] at hsome; cases hsome
    · intro m hm
      rcases hca with ⟨hnone, -⟩ | hsome
      · rw [hm] at hnone; cases hnone
      · rw [hm] at hsome
        injection hsome with e
        rw [e]
        rfl
    · intro hf
      simp [PPOAgent.mkState, builtUpdateSpec, hf]
    · intro f hf
      simp [PPOAgent.mkState, builtUpdateSpec, hf]
  · intro a s h
    obtain ⟨mem, rfl, hca⟩ := trpo_init_ok_inv a s h
    refine ⟨?_, ?_, ?_, ?_⟩
    · intro hmem
      rcases hca with ⟨-, rfl⟩ | hsome
      · rfl
      · rw [hmem] at hsome; cases hsome
    · intro m hm
      rcases hca with ⟨hnone, -⟩ | hsome
      · rw [hm] at hnone; cases hnone
      · rw [hm] at hsome
        injection hsome with e
        rw [e]
        rfl
    · intro hf
      simp [TRPOAgent.mkState, builtUpdateSpec, hf]
    · intro f hf
      simp [TRPOAgent.mkState, builtUpdateSpec, hf]

/-- C5: `initialize_model` of both agents constructs a `PGProbRatioModel`
forwarding every stored configuration field unchanged, and leaves the agent
state itself unmodified. -/
theorem agents_initialize_model_forwards (s : AgentState) :
    PPOAgent.initialize_model s =
      ({ states_spec := s.states_spec, actions_spec := s.actions_spec,
         device := s.device, session_config := s.session_config, scope := s.scope,
         saver_spec := s.saver_spec, summary_spec := s.summary_spec,
         distributed_spec := s.distributed_spec, variable_noise := s.variable_noise,
         states_preprocessing := s.states_preprocessing,
         actions_exploration := s.actions_exploration,
         reward_preprocessing := s.reward_preprocessing, memory := s.memory,
         update_spec := s.update_spec, optimizer := s.optimizer,
         discount := s.discount, network := s.network,
         distributions := s.distributions,
         entropy_regularization := s.entropy_regularization,
         baseline_mode := s.baseline_mode, baseline := s.baseline,
         baseline_optimizer := s.baseline_optimizer, gae_lambda := s.gae_lambda,
         likelihood_ratio_clipping := s.likelihood_ratio_clipping }, s) ∧
    TRPOAgent.initialize_model s =
      ({ states_spec := s.states_spec, actions_spec := s.actions_spec,
         device := s.device, session_config := s.session_config, scope := s.scope,
         saver_spec := s.saver_spec, summary_spec := s.summary_spec,
         distributed_spec := s.distributed_spec, variable_noise := s.variable_noise,
         states_preprocessing := s.states_preprocessing,
         actions_exploration := s.actions_exploration,
         reward_preprocessing := s.reward_preprocessing, memory := s.memory,
         update_spec := s.update_spec, optimizer := s.optimizer,
         discount := s.discount, network := s.network,
         distributions := s.distributions,
         entropy_regularization := s.entropy_regularization,
         baseline_mode := s.baseline_mode, baseline := s.baseline,
         baseline_optimizer := s.baseline_optimizer, gae_lambda := s.gae_lambda,
         likelihood_ratio_clipping := s.likelihood_ratio_clipping }, s) :=
  ⟨rfl, rfl⟩

/-- C8 amended: construction errors exactly when the network is None, or a
non-None memory lacks an `include_next_states` entry or holds a truthy one;
a None network raises `TensorForceError("No network provided.")`. -/
theorem agents_error_conditions :
    (∀ a : PPOArgs,
      ((∃ e, PPOAgent.init a = Except.error e) ↔
        (a.network = Val.none ∨ ∃ m, a.memory = Option.some m ∧
          (dictGet m "include_next_states" = Option.none ∨
           ∃ v, dictGet m "include_next_states" = Option.some v ∧ v.truthy = true))) ∧
      (a.network = Val.none →
        PPOAgent.init a = Except.error (PyErr.tensorForceError "No network provided."))) ∧
    (∀ a : TRPOArgs,
      ((∃ e, TRPOAgent.init a = Except.error e) ↔
        (a.network = Val.none ∨ ∃ m, a.memory = Option.some m ∧
          (dictGet m "include_next_states" = Option.none ∨
           ∃ v, dictGet m "include_next_states" = Option.some v ∧ v.truthy = true))) ∧
      (a.network = Val.none →
        TRPOAgent.init a = Except.error (PyErr.tensorForceError "No network provided."))) := by
  constructor
  · intro a
    constructor
    · constructor
      · rintro ⟨e, he⟩
        unfold PPOAgent.init at he
        by_cases hn : a.network.isNone = true
        · exact Or.inl ((Val.isNone_iff a.network).mp hn)
        · rw [if_neg hn] at he
          cases hm : a.memory with
          | none => rw [hm] at he; cases he
          | some m =>
            rw [hm] at he
            dsimp only at he
            refine Or.inr ⟨m, rfl, ?_⟩
            cases hk : dictGet m "include_next_states" with
            | none => exact Or.inl rfl
            | some v =>
              rw [hk] at he
              dsimp only at he
              by_cases hv : v.truthy = true
              · exact Or.inr ⟨v, rfl, hv⟩
              · rw [if_neg hv] at he; cases he
      · intro hc
        unfold PPOAgent.init
        by_cases hn : a.network.isNone = true
        · rw [if_pos hn]
          exact ⟨_, rfl⟩
        · rw [if_neg hn]
          rcases hc with hnet | ⟨m, hm, hk⟩
          · exact absurd ((Val.isNone_iff a.network).mpr hnet) hn
          · rw [hm]
            dsimp only
            rcases hk with hk | ⟨v, hv, ht⟩
            · rw [hk]
              exact ⟨_, rfl⟩
            · rw [hv]
              dsimp only
              rw [if_pos ht]
              exact ⟨_, rfl⟩
    · intro hnet
      unfold PPOAgent.init
      rw [if_pos ((Val.isNone_iff a.network).mpr hnet)]
  · intro a
    constructor
    · constructor
      · rintro ⟨e, he⟩
        unfold TRPOAgent.init at he
        by_cases hn : a.network.isNone = true
        · exact Or.inl ((Val.isNone_iff a.network).mp hn)
        · rw [if_neg hn] at he
          cases hm : a.memory with
          | none => rw [hm] at he; cases he
          | some m =>
            rw [hm] at he
            dsimp only at he
            refine Or.inr ⟨m, rfl, ?_⟩
            cases hk : dictGet m "include_next_states" with
            | none => exact Or.inl rfl
            | some v =>
              rw [hk] at he
              dsimp only at he
              by_cases hv : v.truthy = true
              · exact Or.inr ⟨v, rfl, hv⟩
              · rw [if_neg hv] at he; cases he
      · intro hc
        unfold TRPOAgent.init
        by_cases hn : a.network.isNone = true
        · rw [if_pos hn]
          exact ⟨_, rfl⟩
        · rw [if_neg hn]
          rcases hc with hnet | ⟨m, hm, hk⟩
          · exact absurd ((Val.isNone_iff a.network).mpr hnet) hn
          · rw [hm]
            dsimp only
            rcases hk with hk | ⟨v, hv, ht⟩
            · rw [hk]
              exact ⟨_, rfl⟩
            · rw [hv]
              dsimp only
              rw [if_pos ht]
              exact ⟨_, rfl⟩
    · intro hnet
      unfold TRPOAgent.init
      rw [if_pos ((Val.isNone_iff a.network).mpr hnet)]

/-- C9: the update_spec constructor argument has no effect on the
constructed agent, and the stored update_spec always equals
`dict(mode='episodes', batch_size=batch_size, frequency=update_frequency)`
(with the update_frequency default applied). -/
theorem agents_update_spec_argument_ignored :
    (∀ (a : PPOArgs) (u1 u2 : Val),
      PPOAgent.init { a with update_spec := u1 } =
        PPOAgent.init { a with update_spec := u2 }) ∧
    (∀ (a : PPOArgs) (s : AgentState), PPOAgent.init a = Except.ok s →
      s.update_spec = Val.dict
        [("mode", Val.str "episodes"), ("batch_size", Val.int a.batch_size),
         ("frequency", Val.int (a.update_frequency.getD a.batch_size))]) ∧
    (∀ (a : TRPOArgs) (u1 u2 : Val),
      TRPOAgent.init { a with update_spec := u1 } =
        TRPOAgent.init { a with update_spec := u2 }) ∧
    (∀ (a : TRPOArgs) (s : AgentState), TRPOAgent.init a = Except.ok s →
      s.update_spec = Val.dict
        [("mode", Val.str "episodes"), ("batch_size", Val.int a.batch_size),
         ("frequency", Val.int (a.update_frequency.getD a.batch_size))]) := by
  refine ⟨?_, ?_, ?_, ?_⟩
  · intro a u1 u2
    cases a
    rfl
  · intro a s h
    obtain ⟨mem, rfl, -⟩ := ppo_init_ok_inv a s h
    rfl
  · intro a u1 u2
    cases a
    rfl
  · intro a s h
    obtain ⟨mem, rfl, -⟩ := trpo_init_ok_inv a s h
    rfl

/-- C8 counterexample: a provided memory dict without an
`include_next_states` key makes `PPOAgent.init` raise `KeyError`, although
the network is provided and the memory holds no truthy `include_next_states`
entry — an error's presence is not equivalent to the two claimed conditions. -/
theorem ppo_memory_missing_key_cex :
    PPOAgent.init { ppoArgs0 with memory := Option.some [("type", Val.str "latest")] } =
      Except.error (PyErr.keyError "include_next_states") ∧
    ({ ppoArgs0 with memory := Option.some [("type", Val.str "latest")] } : PPOArgs).network ≠
      Val.none ∧
    dictGet [("type", Val.str "latest")] "include_next_states" = Option.none :=
  ⟨rfl, fun h => Val.noConfusion h, rfl⟩

/-! Witnesses: each claim theorem applied at a concrete input. -/

/-- Witness for C1 at the concrete int action. -/
theorem random_model_action_bounds_holds :
    (aInt0.type = "bool" → ∃ t, dictGetTV acts0 "a" = Option.some t ∧
        ∀ j, ∃ v : Bool, t.elem j = Scalar.b v) ∧
    (aInt0.type = "int" → ∀ n, aInt0.num_actions = Option.some n → 1 ≤ n →
        ∃ t, dictGetTV acts0 "a" = Option.some t ∧
          ∀ j, ∃ v : Int, t.elem j = Scalar.i v ∧ 0 ≤ v ∧ v < n) ∧
    (aInt0.type = "float" → ∀ mn mx, aInt0.min_value = Option.some mn →
        aInt0.max_value = Option.some mx → mn ≤ mx →
        ∃ t, dictGetTV acts0 "a" = Option.some t ∧
          ∀ j, ∃ v : Rat, t.elem j = Scalar.f v ∧ mn ≤ v ∧ v ≤ mx) :=
  random_model_action_bounds u0 g0 (fun _ _ => by norm_num [u0]) states0 [] spec0
    acts0 [] (by simp [spec0]) rfl "a" aInt0 (by simp [spec0])

/-- Witness for C6 at the concrete int action. -/
theorem random_model_shape_and_sampler_holds :
    ∃ t, dictGetTV acts0 "a" = Option.some t ∧ t.shape = 2 :: aInt0.shape ∧
      (aInt0.type = "bool" → ∀ j, t.elem j = Scalar.b (decide (u0 "a" j < 1 / 2))) ∧
      (aInt0.type = "int" → ∃ n, aInt0.num_actions = Option.some n ∧
        ∀ j, t.elem j = Scalar.i ⌊u0 "a" j * (n : Rat)⌋) ∧
      (aInt0.type = "float" →
        (∀ mn mx, aInt0.min_value = Option.some mn → aInt0.max_value = Option.some mx →
          ∀ j, t.elem j = Scalar.f (mn + u0 "a" j * (mx - mn))) ∧
        (aInt0.min_value = Option.none → ∀ j, t.elem j = Scalar.f (g0 "a" j))) :=
  random_model_shape_and_sampler u0 g0 states0 [] spec0 acts0 [] "s" st0 [] 2 []
    (by simp [spec0]) rfl rfl rfl "a" aInt0 (by simp [spec0]) (Or.inr (Or.inl rfl))

/-- Witness for C7: a non-empty internals collection fails the assertion. -/
theorem random_model_stateless_holds :
    tf_actions_and_internals u0 g0 states0 [st0] spec0 =
      Except.error PyErr.assertionError :=
  (random_model_stateless u0 g0 states0 [st0] spec0).1 (by simp)

/-- Witness for C10 at the concrete unknown-typed action. -/
theorem random_model_unknown_type_dropped_holds :
    sampleAction (u0 "x") (g0 "x") 2 aUnk0 = Except.ok Option.none ∧
    (∀ acts out,
      tf_actions_and_internals u0 g0 states0 [] specU0 = Except.ok (acts, out) →
      dictGetTV acts "x" = Option.none) :=
  random_model_unknown_type_dropped u0 g0 2 states0 [] specU0 "x" aUnk0
    (by simp [specU0]) (by simp [specU0]) (by decide) (by decide) (by decide)

/-- Witness for C2 at the concrete PPO arguments. -/
theorem ppo_optimizer_spec_holds :
    ppoS0.optimizer = Val.dict
      [("type", Val.str "multi_step"),
       ("optimizer", Val.dict
         [("type", Val.str "subsampling_step"),
          ("optimizer", ppoArgs0.step_optimizer.getD (Val.dict
            [("type", Val.str "adam"), ("learning_rate", Val.float (1 / 10000))])),
          ("fraction", ppoArgs0.subsampling_fraction)]),
       ("num_steps", ppoArgs0.optimization_steps)] :=
  ppo_optimizer_spec ppoArgs0 ppoS0 rfl

/-- Witness for C3 at the concrete TRPO arguments. -/
theorem trpo_optimizer_spec_holds :
    trpoS0.optimizer = Val.dict
      [("type", Val.str "optimized_step"),
       ("optimizer", Val.dict
         [("type", Val.str "natural_gradient"),
          ("learning_rate", trpoArgs0.learning_rate),
          ("cg_max_iterations", trpoArgs0.cg_max_iterations),
          ("cg_damping", trpoArgs0.cg_damping),
          ("cg_unroll_loop", trpoArgs0.cg_unroll_loop)]),
       ("ls_max_iterations", trpoArgs0.ls_max_iterations),
       ("ls_accept_ratio", trpoArgs0.ls_accept_ratio),
       ("ls_mode", Val.str "exponential"),
       ("ls_parameter", Val.float (1 / 2)),
       ("ls_unroll_loop", trpoArgs0.ls_unroll_loop)] :=
  trpo_optimizer_spec trpoArgs0 trpoS0 rfl

/-- Witness for C4: the default memory fills in for None at the concrete
PPO arguments. -/
theorem agents_memory_and_update_defaults_hold :
    ppoS0.memory = Val.dict
      [("type", Val.str "latest"), ("include_next_states", Val.bool false),
       ("capacity", Val.int (1000 * ppoArgs0.batch_size))] :=
  (agents_memory_and_update_defaults.1 ppoArgs0 ppoS0 rfl).1 rfl

/-- Witness for C5: at the concrete state, both models leave the agent
unmodified. -/
theorem agents_initialize_model_forwards_hold :
    (PPOAgent.initialize_model ppoS0).2 = ppoS0 ∧
    (TRPOAgent.initialize_model ppoS0).2 = ppoS0 :=
  ⟨congrArg Prod.snd (agents_initialize_model_forwards ppoS0).1,
   congrArg Prod.snd (agents_initialize_model_forwards ppoS0).2⟩

/-- Witness for C8 (amended): a None network raises the TensorForceError. -/
theorem agents_error_conditions_hold :
    PPOAgent.init { ppoArgs0 with network := Val.none } =
      Except.error (PyErr.tensorForceError "No network provided.") :=
  (agents_error_conditions.1 { ppoArgs0 with network := Val.none }).2 rfl

/-- Witness for C9: two concrete constructions differing only in
update_spec coincide. -/
theorem agents_update_spec_argument_ignored_holds :
    PPOAgent.init { ppoArgs0 with update_spec := Val.int 1 } =
      PPOAgent.init { ppoArgs0 with update_spec := Val.int 2 } :=
  agents_update_spec_argument_ignored.1 ppoArgs0 (Val.int 1) (Val.int 2)
